import Mathlib

/-!
Verification of the ID-card batch processing core.

The definitions below are a shallow embedding of the TypeScript source:
* `src/api/services/baiduOcr.ts` — field validation, keyword detection,
  retry policy, smart side classification (`BaiduOcrService`);
* `src/api/routes/batchFiles.ts` (smart-recognition variant) — per-folder
  front/back selection (`processFolderFiles`) and the batch loop of
  `POST /api/batch/process-files`.

JavaScript strings are modelled as Lean `String`s (per-code-point; all the
characters involved are in the BMP, where JS `.length` agrees), JS `trim`
and the regex class `\s` by an explicit whitespace-character predicate, and
regular-expression tests by executable character-list matchers.
-/

namespace IdCardBatch

/-! ### String utilities (JS semantics) -/

/-- The character set matched by JavaScript's `\s` and trimmed by
`String.prototype.trim`. -/
def isJsSpaceChar (c : Char) : Bool :=
  c = ' ' || c = '\t' || c = '\n' || c = '\r' || c = '\x0b' || c = '\x0c' ||
  c = '\u00a0' || c = '\u1680' || ('\u2000' ≤ c && c ≤ '\u200a') ||
  c = '\u2028' || c = '\u2029' || c = '\u202f' || c = '\u205f' ||
  c = '\u3000' || c = '\ufeff'

/-- JS `s.replace(/\s/g, '')`. -/
def stripSpaces (s : String) : String :=
  String.mk (s.toList.filter (fun c => !isJsSpaceChar c))

/-- The characters of JS `s.trim()`. -/
def jsTrimmedChars (s : String) : List Char :=
  ((s.toList.dropWhile isJsSpaceChar).reverse.dropWhile isJsSpaceChar).reverse

/-- JS `s.includes(sub)`: `sub` occurs contiguously inside `s`. -/
def containsStr (s sub : String) : Bool :=
  decide (sub.toList <:+: s.toList)

/-! ### Front-side validation (`validateIdCardFrontInfo`, baiduOcr.ts lines 42-86) -/

/-- The fields of `IdCardInfo` that front validation inspects. -/
structure IdCardInfo where
  name : String
  idNumber : String
  gender : String
  nation : String
  birthday : String
  address : String
deriving Repr, DecidableEq

/-- Score plus pass/fail verdict, as returned by the validation functions. -/
structure Verdict where
  isValid : Bool
  score : Nat
deriving Repr, DecidableEq

/-- JS regex `/^\d{17}[\dXx]$/`. -/
def idNumberPattern (s : String) : Bool :=
  let cs := s.toList
  cs.length == 18 && (cs.take 17).all Char.isDigit &&
    (cs.drop 17).all (fun c => c.isDigit || c = 'X' || c = 'x')

/-- The score computed by `validateIdCardFrontInfo`: name 30, id number 30,
gender 15, nation 10, birthday 10, address 5. -/
def frontScoreOf (i : IdCardInfo) : Nat :=
  (if 2 ≤ (jsTrimmedChars i.name).length then 30 else 0)
  + (if idNumberPattern (stripSpaces i.idNumber) then 30 else 0)
  + (if i.gender ∈ (["男", "女"] : List String) then 15 else 0)
  + (if 0 < (jsTrimmedChars i.nation).length then 10 else 0)
  + (if 0 < (jsTrimmedChars i.birthday).length then 10 else 0)
  + (if 0 < (jsTrimmedChars i.address).length then 5 else 0)

/-- Function `validateIdCardFrontInfo`: valid iff the score reaches 60. -/
def validateIdCardFrontInfo (i : IdCardInfo) : Verdict :=
  ⟨decide (60 ≤ frontScoreOf i), frontScoreOf i⟩

/-! ### Side recommendation (`smartRecognizeIdCard`, baiduOcr.ts lines 425-440) -/

/-- The `recommendedSide` values `'front' | 'back' | 'unknown'`. -/
inductive Side where
  | front
  | back
  | unknown
deriving Repr, DecidableEq

/-- The `recommendedSide` decision of `smartRecognizeIdCard`, translated
from the source's if/else-if chain. -/
def smartRecommendedSide (frontScore backScore : Nat) : Side :=
  if frontScore > backScore ∧ frontScore ≥ 60 then Side.front
  else if backScore > frontScore ∧ backScore ≥ 70 then Side.back
  else if frontScore = backScore ∧ frontScore > 0 then Side.front
  else Side.unknown

/-- Modelled from the spec's words (§4.3, for the refinement comparison):
"if frontScore > backScore and frontScore ≥ 60 → Front; else if
backScore > frontScore and backScore ≥ 70 → Back; else if
frontScore == backScore and frontScore > 0 → Front; else → Unknown". -/
def specRecommendedSide (frontScore backScore : Nat) : Side :=
  if frontScore > backScore ∧ frontScore ≥ 60 then Side.front
  else if backScore > frontScore ∧ backScore ≥ 70 then Side.back
  else if frontScore = backScore ∧ frontScore > 0 then Side.front
  else Side.unknown

/-- Claim C1: the `recommendedSide` of `smartRecognizeIdCard` follows exactly
the spec's precedence order (front strictly better and ≥ 60 → front; back
strictly better and ≥ 70 → back; nonzero tie → front; otherwise unknown),
and a 70/70 tie deterministically yields front. -/
theorem claim1_recommendedSide_precedence :
    (∀ f b : Nat, smartRecommendedSide f b = specRecommendedSide f b)
    ∧ (∀ f b : Nat,
        smartRecommendedSide f b = Side.front ↔ ((b < f ∧ 60 ≤ f) ∨ (f = b ∧ 0 < f)))
    ∧ (∀ f b : Nat, smartRecommendedSide f b = Side.back ↔ (f < b ∧ 70 ≤ b))
    ∧ smartRecommendedSide 70 70 = Side.front := by
  refine ⟨fun f b => rfl, ?_, ?_, by decide⟩
  · intro f b
    unfold smartRecommendedSide
    split_ifs with h1 h2 h3 <;> simp <;> omega
  · intro f b
    unfold smartRecommendedSide
    split_ifs with h1 h2 h3 <;> simp <;> omega

/-! ### Claim C2: front scoring with the three identity fields -/

/-- A front extraction with valid name, id number and gender but empty
nation, birthday and address. -/
def frontOnlyRequired : IdCardInfo :=
  ⟨"李雷", "11010119900101001X", "男", "", "", ""⟩

/-- Claim C2 counterexample: with a valid name, id number and gender but
empty nation, birthday and address, `validateIdCardFrontInfo` scores 75,
not ≥ 85 as the claim states. -/
theorem claim2_counterexample :
    (2 ≤ (jsTrimmedChars frontOnlyRequired.name).length
      ∧ idNumberPattern (stripSpaces frontOnlyRequired.idNumber) = true
      ∧ frontOnlyRequired.gender ∈ (["男", "女"] : List String))
    ∧ (validateIdCardFrontInfo frontOnlyRequired).score = 75
    ∧ ¬(85 ≤ (validateIdCardFrontInfo frontOnlyRequired).score) := by
  refine ⟨⟨?_, ?_, ?_⟩, ?_, ?_⟩ <;> decide

/-- Claim C2 (amended): for every front extraction whose trimmed name has
length ≥ 2, whose id number matches `17 digits + [0-9Xx]` after stripping
whitespace, and whose gender is a valid label, `validateIdCardFrontInfo`
returns a score ≥ 75 (not 85) and `isValid = true`, regardless of the
nation, birthday and address fields. -/
theorem claim2_front_required_fields (i : IdCardInfo)
    (hname : 2 ≤ (jsTrimmedChars i.name).length)
    (hid : idNumberPattern (stripSpaces i.idNumber) = true)
    (hg : i.gender ∈ (["男", "女"] : List String)) :
    75 ≤ (validateIdCardFrontInfo i).score
    ∧ (validateIdCardFrontInfo i).isValid = true := by
  have hsc : 75 ≤ frontScoreOf i := by
    unfold frontScoreOf
    rw [if_pos hname, if_pos hid, if_pos hg]
    have h4 : ∀ n : Nat, (if 0 < n then 10 else 0) + (if 0 < n then 10 else 0) ≥ 0 :=
      fun n => Nat.zero_le _
    omega
  refine ⟨hsc, ?_⟩
  simp only [validateIdCardFrontInfo, decide_eq_true_eq]
  omega

/-- A fully populated valid front extraction, for the claim C2 witness. -/
def frontFull : IdCardInfo :=
  ⟨"张三", "110101199001010010", "女", "汉", "1990年1月1日", "北京市东城区"⟩

/-- Claim C2 witness: `claim2_front_required_fields` applied at a concrete
front extraction. -/
theorem claim2_witness :
    (2 ≤ (jsTrimmedChars frontFull.name).length
      ∧ idNumberPattern (stripSpaces frontFull.idNumber) = true
      ∧ frontFull.gender ∈ (["男", "女"] : List String))
    ∧ (75 ≤ (validateIdCardFrontInfo frontFull).score
      ∧ (validateIdCardFrontInfo frontFull).isValid = true) :=
  ⟨⟨by decide, by decide, by decide⟩,
    claim2_front_required_fields frontFull (by decide) (by decide) (by decide)⟩

/-! ### Back-side keyword detection (`detectIdCardBackKeywords`, baiduOcr.ts
lines 167-203) and validation (`validateIdCardBackInfo`, lines 211-280) -/

/-- The two fixed national-document marker phrases. -/
def markerPhrases : List String := ["中华人民共和国", "居民身份证"]

/-- Result of `detectIdCardBackKeywords`. -/
structure KeywordDetection where
  hasKeywords : Bool
  detectedKeywords : List String
deriving Repr, DecidableEq

/-- Function `detectIdCardBackKeywords` on the raw recognized text lines: join with
spaces, collect the marker phrases that occur. -/
def detectIdCardBackKeywords (recognizedTexts : List String) : KeywordDetection :=
  let allText := String.intercalate " " recognizedTexts
  let detected := markerPhrases.filter (fun kw => containsStr allText kw)
  ⟨decide (0 < detected.length), detected⟩

/-- The back-side fields inspected by `validateIdCardBackInfo`. -/
structure BackInfo where
  issueAuthority : String
  validPeriod : String
deriving Repr, DecidableEq

/-- The issuing-authority keywords checked by `validateIdCardBackInfo`. -/
def authorityKeywords : List String :=
  ["公安局", "派出所", "分局", "公安分局", "公安厅", "公安部"]

/-- A character-class pattern matches the first characters of a list. -/
def matchesAt : List (Char → Bool) → List Char → Bool
  | [], _ => true
  | _ :: _, [] => false
  | p :: ps, c :: cs => p c && matchesAt ps cs

/-- Unanchored regex `test`: the pattern matches at some position. -/
def searchPattern (pat : List (Char → Bool)) : List Char → Bool
  | [] => matchesAt pat []
  | c :: cs => matchesAt pat (c :: cs) || searchPattern pat cs

/-- Regex `\d`. -/
def digitTok : Char → Bool := Char.isDigit

/-- A literal character. -/
def charTok (a : Char) : Char → Bool := fun c => c = a

/-- Regex class `[-—]`. -/
def dashTok : Char → Bool := fun c => c = '-' || c = '—'

/-- Regex `\d{4}\.\d{2}\.\d{2}`. -/
def dateDotPat : List (Char → Bool) :=
  List.replicate 4 digitTok ++ [charTok '.'] ++ List.replicate 2 digitTok
    ++ [charTok '.'] ++ List.replicate 2 digitTok

/-- The literal `长期` ("indefinite"). -/
def changQiPat : List (Char → Bool) := [charTok '长', charTok '期']

/-- The five valid-period regexes of `validateIdCardBackInfo`. -/
def validPeriodPatterns : List (List (Char → Bool)) :=
  [ dateDotPat ++ [dashTok] ++ dateDotPat
  , dateDotPat ++ [dashTok] ++ changQiPat
  , List.replicate 8 digitTok ++ [dashTok] ++ List.replicate 8 digitTok
  , List.replicate 8 digitTok ++ [dashTok] ++ changQiPat
  , changQiPat ]

/-- JS `validPeriodPatterns.some(p => p.test(validPeriod))`. -/
def hasValidPeriodFormat (s : String) : Bool :=
  validPeriodPatterns.any (fun pat => searchPattern pat s.toList)

/-- The keyword-tier contribution of `validateIdCardBackInfo`: 80 when the
(optional) keyword detection found a marker phrase, otherwise 0. -/
def keywordBaseScore (kd : Option KeywordDetection) : Nat :=
  match kd with
  | some k => if k.hasKeywords then 80 else 0
  | none => 0

theorem keywordBaseScore_some (k : KeywordDetection) :
    keywordBaseScore (some k) = if k.hasKeywords then 80 else 0 := rfl

theorem keywordBaseScore_none : keywordBaseScore none = 0 := rfl

/-- The score computed by `validateIdCardBackInfo`: 80 for detected marker
keywords, plus 30/10 for the issuing authority and 20/10 for the valid
period. -/
def backScoreOf (b : BackInfo) (kd : Option KeywordDetection) : Nat :=
  keywordBaseScore kd
  + (if 0 < (jsTrimmedChars b.issueAuthority).length then
      (if authorityKeywords.any (fun kw => containsStr b.issueAuthority kw) then 30 else 10)
    else 0)
  + (if 0 < (jsTrimmedChars b.validPeriod).length then
      (if hasValidPeriodFormat b.validPeriod then 20 else 10)
    else 0)

/-- Source line `const requiredScore = keywordDetection?.hasKeywords ? 80 : 70`. -/
def backRequiredScore (kd : Option KeywordDetection) : Nat :=
  match kd with
  | some k => if k.hasKeywords then 80 else 70
  | none => 70

theorem backRequiredScore_some (k : KeywordDetection) :
    backRequiredScore (some k) = if k.hasKeywords then 80 else 70 := rfl

theorem backRequiredScore_none : backRequiredScore none = 70 := rfl

/-- Function `validateIdCardBackInfo`: valid iff the score reaches the required
threshold (80 with keywords, 70 without). -/
def validateIdCardBackInfo (b : BackInfo) (kd : Option KeywordDetection) : Verdict :=
  ⟨decide (backRequiredScore kd ≤ backScoreOf b kd), backScoreOf b kd⟩

/-- A marker phrase in the recognized text makes `hasKeywords` true. -/
theorem hasKeywords_of_marker (texts : List String)
    (h : containsStr (String.intercalate " " texts) "中华人民共和国" = true
      ∨ containsStr (String.intercalate " " texts) "居民身份证" = true) :
    (detectIdCardBackKeywords texts).hasKeywords = true := by
  unfold detectIdCardBackKeywords markerPhrases
  rcases h with h | h <;>
    · simp only [List.filter, h, decide_eq_true_eq]
      split <;> simp

/-- Claim C4: whenever the raw recognized text of a back image contains at
least one of the two marker phrases, `validateIdCardBackInfo` scores ≥ 80
and returns `isValid = true`, whatever the issuing-authority and
valid-period fields hold. -/
theorem claim4_back_keyword_tier (texts : List String) (b : BackInfo)
    (h : containsStr (String.intercalate " " texts) "中华人民共和国" = true
      ∨ containsStr (String.intercalate " " texts) "居民身份证" = true) :
    80 ≤ (validateIdCardBackInfo b (some (detectIdCardBackKeywords texts))).score
    ∧ (validateIdCardBackInfo b (some (detectIdCardBackKeywords texts))).isValid = true := by
  have hk := hasKeywords_of_marker texts h
  have hs : 80 ≤ backScoreOf b (some (detectIdCardBackKeywords texts)) := by
    unfold backScoreOf
    rw [keywordBaseScore_some, hk]
    simp only [if_true]
    omega
  refine ⟨hs, ?_⟩
  simp only [validateIdCardBackInfo, backRequiredScore_some, hk, if_true, decide_eq_true_eq]
  exact hs

/-- Claim C4 witness: `claim4_back_keyword_tier` at a concrete back image
whose text contains a marker phrase and whose fields are empty. -/
theorem claim4_witness :
    (containsStr (String.intercalate " " ["中华人民共和国", "居民身份证"]) "中华人民共和国" = true
      ∨ containsStr (String.intercalate " " ["中华人民共和国", "居民身份证"]) "居民身份证" = true)
    ∧ (80 ≤ (validateIdCardBackInfo ⟨"", ""⟩
          (some (detectIdCardBackKeywords ["中华人民共和国", "居民身份证"]))).score
      ∧ (validateIdCardBackInfo ⟨"", ""⟩
          (some (detectIdCardBackKeywords ["中华人民共和国", "居民身份证"]))).isValid = true) :=
  ⟨Or.inl (by decide),
    claim4_back_keyword_tier ["中华人民共和国", "居民身份证"] ⟨"", ""⟩ (Or.inl (by decide))⟩

/-- Claim C10: without a marker-phrase keyword match the supplementary tier
alone caps the back score at 30 + 20 = 50 < 70, so `validateIdCardBackInfo`
never returns a valid verdict on the keyword-less path. -/
theorem claim10_keywordless_back_invalid (b : BackInfo) (kd : KeywordDetection)
    (h : kd.hasKeywords = false) :
    (validateIdCardBackInfo b (some kd)).score ≤ 50
    ∧ (validateIdCardBackInfo b (some kd)).isValid = false
    ∧ (validateIdCardBackInfo b none).score ≤ 50
    ∧ (validateIdCardBackInfo b none).isValid = false := by
  have hauth : (if 0 < (jsTrimmedChars b.issueAuthority).length then
      (if authorityKeywords.any (fun kw => containsStr b.issueAuthority kw) then 30 else 10)
    else 0) ≤ 30 := by split_ifs <;> omega
  have hper : (if 0 < (jsTrimmedChars b.validPeriod).length then
      (if hasValidPeriodFormat b.validPeriod then 20 else 10)
    else 0) ≤ 20 := by split_ifs <;> omega
  have hs : backScoreOf b (some kd) ≤ 50 := by
    unfold backScoreOf
    rw [keywordBaseScore_some, h]
    simp only [Bool.false_eq_true, if_false]
    omega
  have hn : backScoreOf b none ≤ 50 := by
    unfold backScoreOf
    rw [keywordBaseScore_none]
    omega
  refine ⟨hs, ?_, hn, ?_⟩ <;>
    simp only [validateIdCardBackInfo, backRequiredScore_some, backRequiredScore_none, h,
      Bool.false_eq_true, if_false, decide_eq_false_iff_not, not_le] <;>
    omega

/-- Claim C10 witness: `claim10_keywordless_back_invalid` at a back image
with a matching authority and period but no keywords: score 50, invalid. -/
theorem claim10_witness :
    ((⟨false, []⟩ : KeywordDetection).hasKeywords = false)
    ∧ ((validateIdCardBackInfo ⟨"北京市公安局", "长期"⟩ (some ⟨false, []⟩)).score ≤ 50
      ∧ (validateIdCardBackInfo ⟨"北京市公安局", "长期"⟩ (some ⟨false, []⟩)).isValid = false
      ∧ (validateIdCardBackInfo ⟨"北京市公安局", "长期"⟩ none).score ≤ 50
      ∧ (validateIdCardBackInfo ⟨"北京市公安局", "长期"⟩ none).isValid = false) :=
  ⟨rfl, claim10_keywordless_back_invalid ⟨"北京市公安局", "长期"⟩ ⟨false, []⟩ rfl⟩

/-! ### Retry policy (`recognizeIdCardFront`, baiduOcr.ts lines 93-160)

One external `idcard` call per loop iteration. The outcome of an attempt is
either a success, an API error (`result.error_code` set, with or without
"IAM" in the message), or a thrown error (network failure, timeout). In the
source an IAM API error waits and `continue`s when attempts remain, and any
other failure is thrown and caught by the surrounding `catch`, which also
waits and retries when attempts remain — so every failure kind is retried
with the same `attempt * 2000` ms backoff. -/

/-- Outcome of one call to the external recognition capability. -/
inductive CallOutcome where
  | ok
  | apiError (msgHasIAM : Bool)
  | thrown
deriving Repr, DecidableEq

/-- Observable trace of `recognizeIdCardFront`: how many external calls were
made, the backoff waits (milliseconds, in order), and whether a result was
returned (`false` = the final "已重试 3 次" error is thrown). -/
structure RetryTrace where
  calls : Nat
  waitsMs : List Nat
  success : Bool
deriving Repr, DecidableEq

/-- The retry loop `for (attempt = 1; attempt <= maxRetries; attempt++)`,
with `remaining` iterations left and the current 1-indexed `attempt`.
On failure with `attempt < maxRetries` the code waits `attempt * 2000` ms
(IAM branch line 117, catch branch line 154) and retries; otherwise the
loop ends and the final error is thrown. -/
def retryGo (respond : Nat → CallOutcome) (maxRetries : Nat) :
    Nat → Nat → RetryTrace
  | _, 0 => ⟨0, [], false⟩
  | attempt, remaining + 1 =>
    match respond attempt with
    | CallOutcome.ok => ⟨1, [], true⟩
    | _ =>
      if attempt < maxRetries then
        let t := retryGo respond maxRetries (attempt + 1) remaining
        ⟨t.calls + 1, attempt * 2000 :: t.waitsMs, t.success⟩
      else ⟨1, [], false⟩

/-- Function `recognizeIdCardFront` with `maxRetries = 3`, abstracted over the
external capability's per-attempt outcome. -/
def recognizeIdCardFrontTrace (respond : Nat → CallOutcome) : RetryTrace :=
  retryGo respond 3 1 3

/-- The loop makes at most `remaining` calls. -/
theorem retryGo_calls_le (respond : Nat → CallOutcome) (maxRetries : Nat) :
    ∀ attempt remaining, (retryGo respond maxRetries attempt remaining).calls ≤ remaining := by
  intro attempt remaining
  induction remaining generalizing attempt with
  | zero => simp [retryGo]
  | succ n ih =>
    unfold retryGo
    match respond attempt with
    | CallOutcome.ok => simp
    | CallOutcome.apiError b =>
      simp only
      split
      · exact Nat.succ_le_succ (ih (attempt + 1))
      · exact Nat.succ_le_succ (Nat.zero_le n)
    | CallOutcome.thrown =>
      simp only
      split
      · exact Nat.succ_le_succ (ih (attempt + 1))
      · exact Nat.succ_le_succ (Nat.zero_le n)

/-- A stub capability that always fails with an invalid-input API error
(`error_code` set, message without "IAM"): e.g. a malformed image. -/
def invalidInputStub : Nat → CallOutcome := fun _ => CallOutcome.apiError false

/-- Claim C3 counterexample: on a capability that always fails with an
Invalid-input error, `recognizeIdCardFront` calls it 3 times, not once,
and performs the 2000 ms and 4000 ms backoff waits. -/
theorem claim3_counterexample :
    (recognizeIdCardFrontTrace invalidInputStub).calls = 3
    ∧ ¬((recognizeIdCardFrontTrace invalidInputStub).calls = 1)
    ∧ (recognizeIdCardFrontTrace invalidInputStub).waitsMs = [2000, 4000] := by
  refine ⟨?_, ?_, ?_⟩ <;> decide

/-- Claim C3 (amended): an Invalid-input error is retried like every other
failure: when the recognition call fails with an Invalid-input error on
every attempt, `recognizeIdCardFront` calls the external capability 3 times
with 2 s and 4 s backoff waits and then fails — it does not fail on the
first attempt. -/
theorem claim3_invalid_retried (respond : Nat → CallOutcome)
    (h : ∀ a, respond a = CallOutcome.apiError false) :
    recognizeIdCardFrontTrace respond = ⟨3, [2000, 4000], false⟩ := by
  unfold recognizeIdCardFrontTrace
  unfold retryGo
  rw [h 1]
  unfold retryGo
  rw [h 2]
  unfold retryGo
  rw [h 3]
  simp [retryGo]

/-- Claim C3 witness: `claim3_invalid_retried` at the always-invalid stub. -/
theorem claim3_witness :
    (∀ a, invalidInputStub a = CallOutcome.apiError false)
    ∧ recognizeIdCardFrontTrace invalidInputStub = ⟨3, [2000, 4000], false⟩ :=
  ⟨fun _ => rfl, claim3_invalid_retried invalidInputStub (fun _ => rfl)⟩

/-- Claim C8: if the capability fails with an authentication (IAM) error on
attempts 1 and 2 and succeeds on attempt 3, `recognizeIdCardFront` returns
the successful result after exactly 3 calls, having waited 1×2 s and then
2×2 s; and on any capability at most 3 attempts are ever made. -/
theorem claim8_auth_retry_then_success (respond : Nat → CallOutcome)
    (h1 : respond 1 = CallOutcome.apiError true)
    (h2 : respond 2 = CallOutcome.apiError true)
    (h3 : respond 3 = CallOutcome.ok) :
    recognizeIdCardFrontTrace respond = ⟨3, [2000, 4000], true⟩
    ∧ ∀ g : Nat → CallOutcome, (recognizeIdCardFrontTrace g).calls ≤ 3 := by
  constructor
  · unfold recognizeIdCardFrontTrace
    unfold retryGo
    rw [h1]
    unfold retryGo
    rw [h2]
    unfold retryGo
    rw [h3]
    simp
  · intro g
    exact retryGo_calls_le g 3 1 3

/-- A stub capability failing with an authentication error on the first two
attempts and succeeding on the third. -/
def authThenOkStub : Nat → CallOutcome :=
  fun n => if n = 3 then CallOutcome.ok else CallOutcome.apiError true

/-- Claim C8 witness: `claim8_auth_retry_then_success` at the concrete
auth-then-success stub. -/
theorem claim8_witness :
    (authThenOkStub 1 = CallOutcome.apiError true)
    ∧ (authThenOkStub 2 = CallOutcome.apiError true)
    ∧ (authThenOkStub 3 = CallOutcome.ok)
    ∧ (recognizeIdCardFrontTrace authThenOkStub = ⟨3, [2000, 4000], true⟩
      ∧ ∀ g : Nat → CallOutcome, (recognizeIdCardFrontTrace g).calls ≤ 3) :=
  ⟨by decide, by decide, by decide,
    claim8_auth_retry_then_success authThenOkStub (by decide) (by decide) (by decide)⟩

/-! ### Stable descending sort

JS `array.sort((a, b) => b.score - a.score)` is a stable sort into
descending score order; insertion via `foldl`, placing each new element
after all existing elements with a ≥ key, reproduces it. -/

/-- Insert `x` before the first element whose key is strictly smaller. -/
def insertDescBy {α : Type} (key : α → Nat) (x : α) : List α → List α
  | [] => [x]
  | y :: ys => if key y < key x then x :: y :: ys else y :: insertDescBy key x ys

/-- Stable sort into descending key order. -/
def sortDescBy {α : Type} (key : α → Nat) (l : List α) : List α :=
  l.foldl (fun acc x => insertDescBy key x acc) []

/-- Descending key order as a pairwise relation. -/
def SortedDescBy {α : Type} (key : α → Nat) (l : List α) : Prop :=
  l.Pairwise (fun a b => key b ≤ key a)

theorem mem_insertDescBy {α : Type} (key : α → Nat) (x a : α) (l : List α) :
    a ∈ insertDescBy key x l ↔ a = x ∨ a ∈ l := by
  induction l with
  | nil => simp [insertDescBy]
  | cons y ys ih =>
    unfold insertDescBy
    split
    · simp
    · simp only [List.mem_cons, ih]
      tauto

theorem sortedDescBy_insertDescBy {α : Type} (key : α → Nat) (x : α) (l : List α)
    (hl : SortedDescBy key l) : SortedDescBy key (insertDescBy key x l) := by
  induction l with
  | nil => simp [insertDescBy, SortedDescBy]
  | cons y ys ih =>
    rcases List.pairwise_cons.mp hl with ⟨hy, hys⟩
    unfold insertDescBy
    split
    · refine List.pairwise_cons.mpr ⟨?_, hl⟩
      intro b hb
      rcases List.mem_cons.mp hb with rfl | hb
      · omega
      · have := hy b hb
        omega
    · refine List.pairwise_cons.mpr ⟨?_, ih hys⟩
      intro b hb
      rcases (mem_insertDescBy key x b ys).mp hb with rfl | hb
      · omega
      · exact hy b hb

theorem mem_foldl_insertDescBy {α : Type} (key : α → Nat) (l acc : List α) (a : α) :
    a ∈ l.foldl (fun acc x => insertDescBy key x acc) acc ↔ a ∈ l ∨ a ∈ acc := by
  induction l generalizing acc with
  | nil => simp
  | cons x xs ih =>
    simp only [List.foldl_cons, ih, mem_insertDescBy, List.mem_cons]
    tauto

theorem sortedDescBy_foldl_insertDescBy {α : Type} (key : α → Nat) (l acc : List α)
    (hacc : SortedDescBy key acc) :
    SortedDescBy key (l.foldl (fun acc x => insertDescBy key x acc) acc) := by
  induction l generalizing acc with
  | nil => exact hacc
  | cons x xs ih => exact ih _ (sortedDescBy_insertDescBy key x acc hacc)

theorem mem_sortDescBy {α : Type} (key : α → Nat) (l : List α) (a : α) :
    a ∈ sortDescBy key l ↔ a ∈ l := by
  simp [sortDescBy, mem_foldl_insertDescBy]

theorem sortedDescBy_sortDescBy {α : Type} (key : α → Nat) (l : List α) :
    SortedDescBy key (sortDescBy key l) :=
  sortedDescBy_foldl_insertDescBy key l [] (by simp [SortedDescBy])

theorem sortDescBy_eq_nil_iff {α : Type} (key : α → Nat) (l : List α) :
    sortDescBy key l = [] ↔ l = [] := by
  constructor
  · intro h
    cases l with
    | nil => rfl
    | cons x xs =>
      have hx : x ∈ sortDescBy key (x :: xs) :=
        (mem_sortDescBy key (x :: xs) x).mpr (List.mem_cons_self x xs)
      rw [h] at hx
      cases hx
  · intro h
    subst h
    rfl

theorem sortDescBy_head_max {α : Type} (key : α → Nat) (l : List α) (b : α) (t : List α)
    (h : sortDescBy key l = b :: t) : ∀ a ∈ l, key a ≤ key b := by
  intro a ha
  have ha' : a ∈ b :: t := by
    rw [← h]
    exact (mem_sortDescBy key l a).mpr ha
  rcases List.mem_cons.mp ha' with rfl | ha'
  · exact Nat.le_refl _
  · have hs : SortedDescBy key (b :: t) := h ▸ sortedDescBy_sortDescBy key l
    exact (List.pairwise_cons.mp hs).1 a ha'

/-! ### Per-folder front/back selection (`processFolderFiles`,
batchFiles.ts (smart-recognition variant) lines 637-796) -/

/-- One entry of `recognitionResults`: the per-image outcome of
`smartRecognizeIdCard` (`frontName` is `frontInfo?.name`, `""` when front
recognition failed or extracted no name). -/
structure ImageRec where
  imagePath : String
  frontScore : Nat
  backScore : Nat
  frontName : String
  recommendedType : Side
deriving Repr, DecidableEq

/-- The front candidate pool: `recommendedType === 'front' || frontScore > 0`
(line 710). -/
def frontPool (results : List ImageRec) : List ImageRec :=
  results.filter (fun r => r.recommendedType == Side.front || decide (0 < r.frontScore))

/-- The back candidate pool: `recommendedType === 'back' || backScore > 0`
(line 715). -/
def backPool (results : List ImageRec) : List ImageRec :=
  results.filter (fun r => r.recommendedType == Side.back || decide (0 < r.backScore))

/-- Front pick (lines 730-741): top of the descending-sorted front pool;
`("", "")` when the pool is empty. Returns (image path, extracted name). -/
def frontPick (results : List ImageRec) : String × String :=
  match sortDescBy (fun r => r.frontScore) (frontPool results) with
  | best :: _ => (best.imagePath, best.frontName)
  | [] => ("", "")

/-- Back pick (lines 744-758): best back candidate, or the first sorted
candidate differing from the already-chosen front path `front0`; `""` when
none qualifies. In the source this runs before the front fallback, so
`front0` is the pre-fallback front path. -/
def backPick (results : List ImageRec) (front0 : String) : String :=
  match sortDescBy (fun r => r.backScore) (backPool results) with
  | [] => ""
  | best :: _ =>
    if best.imagePath ≠ front0 then best.imagePath
    else
      match (sortDescBy (fun r => r.backScore) (backPool results)).find?
          (fun c => c.imagePath != front0) with
      | some second => second.imagePath
      | none => ""

/-- Final selection of `processFolderFiles`. -/
structure MatchSelection where
  frontImagePath : String
  backImagePath : String
  extractedName : String
  ok : Bool
deriving Repr, DecidableEq

/-- The selection logic of `processFolderFiles` (lines 706-796): smart pick
of front and back, then the fallbacks — front falls back to the first saved
file and the folder name (lines 761-767), back falls back to the first
remaining file (lines 770-776), the name falls back to the folder name
(lines 779-782), and the unit fails when no back image remains (line 785). -/
def processFolderFilesSelect (folderName : String) (results : List ImageRec) :
    MatchSelection :=
  let savedFiles := results.map (fun r => r.imagePath)
  let front0 := (frontPick results).1
  let back0 := backPick results front0
  let front1 := if front0 = "" then savedFiles.headD "" else front0
  let name1 := if front0 = "" then folderName else (frontPick results).2
  let back1 := if back0 = "" then (savedFiles.filter (fun p => p != front1)).headD ""
    else back0
  let name2 := if name1 = "" then folderName else name1
  ⟨front1, back1, name2, back1 != ""⟩

/-- Claim C5: for a unit with ≥ 2 images (non-empty image paths), the front
candidate pool is exactly the images recommended as front or with a
positive front score; when non-empty, the chosen front is a pool member of
maximal front score (the top of the descending sort); when empty, the front
falls back to the first image in unit order and the extracted name to the
folder name. -/
theorem claim5_front_pool_selection (folderName : String) (results : List ImageRec)
    (h2 : 2 ≤ results.length) (hpaths : ∀ r ∈ results, r.imagePath ≠ "") :
    (∀ r, r ∈ frontPool results
      ↔ r ∈ results ∧ (r.recommendedType = Side.front ∨ 0 < r.frontScore))
    ∧ (frontPool results ≠ [] →
        ∃ best, best ∈ frontPool results
          ∧ (processFolderFilesSelect folderName results).frontImagePath = best.imagePath
          ∧ ∀ r ∈ frontPool results, r.frontScore ≤ best.frontScore)
    ∧ (frontPool results = [] →
        (processFolderFilesSelect folderName results).frontImagePath
            = (results.map (fun r => r.imagePath)).headD ""
        ∧ (processFolderFilesSelect folderName results).extractedName = folderName) := by
  refine ⟨?_, ?_, ?_⟩
  · intro r
    simp [frontPool, List.mem_filter]
  · intro hpool
    obtain ⟨best, t, hsort⟩ :
        ∃ best t, sortDescBy (fun r => r.frontScore) (frontPool results) = best :: t := by
      cases hs : sortDescBy (fun r => r.frontScore) (frontPool results) with
      | nil => exact absurd ((sortDescBy_eq_nil_iff _ _).mp hs) hpool
      | cons b t => exact ⟨b, t, rfl⟩
    have hbestmem : best ∈ frontPool results := by
      have : best ∈ sortDescBy (fun r => r.frontScore) (frontPool results) := by
        rw [hsort]
        exact List.mem_cons_self best t
      exact (mem_sortDescBy _ _ _).mp this
    have hbestres : best ∈ results := List.mem_of_mem_filter hbestmem
    have hpath : best.imagePath ≠ "" := hpaths best hbestres
    refine ⟨best, hbestmem, ?_, sortDescBy_head_max _ _ _ _ hsort⟩
    simp only [processFolderFilesSelect, frontPick, hsort]
    rw [if_neg hpath]
  · intro hpool
    have hsort : sortDescBy (fun r => r.frontScore) (frontPool results) = [] := by
      rw [hpool]
      rfl
    constructor
    · simp [processFolderFilesSelect, frontPick, hsort]
    · simp [processFolderFilesSelect, frontPick, hsort]

/-- A two-image unit for the claim C5 witness: a clear front and a clear
back. -/
def witnessUnit : List ImageRec :=
  [⟨"alice1.jpg", 90, 0, "李雷", Side.front⟩, ⟨"alice2.jpg", 0, 90, "", Side.back⟩]

/-- Claim C5 witness: `claim5_front_pool_selection` at a concrete
two-image unit. -/
theorem claim5_witness :
    (2 ≤ witnessUnit.length ∧ ∀ r ∈ witnessUnit, r.imagePath ≠ "")
    ∧ ((∀ r, r ∈ frontPool witnessUnit
        ↔ r ∈ witnessUnit ∧ (r.recommendedType = Side.front ∨ 0 < r.frontScore))
      ∧ (frontPool witnessUnit ≠ [] →
          ∃ best, best ∈ frontPool witnessUnit
            ∧ (processFolderFilesSelect "alice" witnessUnit).frontImagePath = best.imagePath
            ∧ ∀ r ∈ frontPool witnessUnit, r.frontScore ≤ best.frontScore)
      ∧ (frontPool witnessUnit = [] →
          (processFolderFilesSelect "alice" witnessUnit).frontImagePath
              = (witnessUnit.map (fun r => r.imagePath)).headD ""
          ∧ (processFolderFilesSelect "alice" witnessUnit).extractedName = "alice")) :=
  ⟨⟨by decide, by decide⟩,
    claim5_front_pool_selection "alice" witnessUnit (by decide) (by decide)⟩

/-- A unit exposing the front/back exclusivity bug: the first image is a
clear back side (keyword detection scored it 90, front recognition failed),
the second image recognizes as neither side. The front pool is empty, so
after the back was already fixed to the first image, the front falls back
to that same first image. -/
def bugUnit : List ImageRec :=
  [⟨"u1.jpg", 0, 90, "", Side.back⟩, ⟨"u2.jpg", 0, 0, "", Side.unknown⟩]

/-- Claim C6: the code violates front/back exclusivity. On `bugUnit` the
selection returns the same image (`u1.jpg`) as both front and back and
still reports the unit as complete, because the back pick (lines 744-758)
compares against the pre-fallback front path while the front fallback
(lines 761-767) later claims the first image. -/
theorem claim6_front_back_not_exclusive :
    (processFolderFilesSelect "u" bugUnit).frontImagePath = "u1.jpg"
    ∧ (processFolderFilesSelect "u" bugUnit).backImagePath = "u1.jpg"
    ∧ (processFolderFilesSelect "u" bugUnit).frontImagePath
        = (processFolderFilesSelect "u" bugUnit).backImagePath
    ∧ (processFolderFilesSelect "u" bugUnit).ok = true := by
  refine ⟨?_, ?_, ?_, ?_⟩ <;> decide

/-! ### Substring lemmas for the error-message claims -/

theorem containsStr_append_left (a b sub : String) (h : containsStr a sub = true) :
    containsStr (a ++ b) sub = true := by
  simp only [containsStr, decide_eq_true_eq] at h ⊢
  exact h.trans ⟨[], b.toList, by simp⟩

theorem containsStr_append_right (a b sub : String) (h : containsStr b sub = true) :
    containsStr (a ++ b) sub = true := by
  simp only [containsStr, decide_eq_true_eq] at h ⊢
  exact h.trans ⟨a.toList, [], by simp⟩

theorem containsStr_refl (s : String) : containsStr s s = true := by
  simp [containsStr]

/-! ### Batch orchestrator (`POST /api/batch/process-files` loop,
batchFiles.ts lines 433-537)

The per-unit body (OCR classification, matching, PDF composition, its own
try/catch) is abstracted as a `process` function: it either returns
success, returns a failure message, or throws — the loop's `catch` turns a
throw into a failure result exactly like a returned failure. -/

/-- One logical unit: a folder name with its matched uploaded files. -/
structure Folder where
  folderName : String
  files : List String
deriving Repr, DecidableEq

/-- Outcome of `processFolderFiles` for one unit, as seen by the loop. -/
inductive ProcessOutcome where
  | ok
  | err (msg : String)
  | exn (msg : String)
deriving Repr, DecidableEq

/-- One entry of `results`. -/
structure BatchResult where
  folderPath : String
  success : Bool
  errorMessage : Option String
deriving Repr, DecidableEq

/-- The `summary` object. -/
structure BatchSummary where
  total : Nat
  success : Nat
  failed : Nat
  failedFolders : List String
deriving Repr, DecidableEq

/-- The insufficient-images error message (line 474). -/
def insufficientImagesMessage (f : Folder) : String :=
  "文件夹 \"" ++ f.folderName ++ "\" 中的图片文件不足，需要至少2张图片，当前只有"
    ++ toString f.files.length ++ "张。"
    ++ (if f.files.length = 0 then "可能是文件匹配失败导致。" else "")

/-- One iteration of the folder loop (lines 453-537): fewer than 2 files is
rejected up front with the insufficient-images message; otherwise the
unit's processing outcome (returned failure or thrown error alike) becomes
a single result entry. -/
def stepUnit (process : Folder → ProcessOutcome) (f : Folder) : BatchResult :=
  if f.files.length < 2 then ⟨f.folderName, false, some (insufficientImagesMessage f)⟩
  else
    match process f with
    | ProcessOutcome.ok => ⟨f.folderName, true, none⟩
    | ProcessOutcome.err m => ⟨f.folderName, false, some m⟩
    | ProcessOutcome.exn m => ⟨f.folderName, false, some m⟩

/-- The folder loop: one result per folder, in order. -/
def runUnits (process : Folder → ProcessOutcome) : List Folder → List BatchResult
  | [] => []
  | f :: fs => stepUnit process f :: runUnits process fs

/-- The summary counters: exactly one of `success`/`failed` is incremented
per result, and failed folder names are recorded in order. -/
def tallyResults : List BatchResult → Nat × Nat × List String
  | [] => (0, 0, [])
  | r :: rs =>
    let t := tallyResults rs
    if r.success then (t.1 + 1, t.2.1, t.2.2)
    else (t.1, t.2.1 + 1, r.folderPath :: t.2.2)

/-- The whole `process-files` batch: results plus summary, with
`summary.total = folderData.length` fixed up front (line 435). -/
def processFilesBatch (process : Folder → ProcessOutcome) (folders : List Folder) :
    List BatchResult × BatchSummary :=
  let results := runUnits process folders
  ⟨results, ⟨folders.length, (tallyResults results).1, (tallyResults results).2.1,
    (tallyResults results).2.2⟩⟩

theorem stepUnit_folderPath (process : Folder → ProcessOutcome) (f : Folder) :
    (stepUnit process f).folderPath = f.folderName := by
  unfold stepUnit
  split
  · rfl
  · split <;> rfl

theorem runUnits_map_folderPath (process : Folder → ProcessOutcome) :
    ∀ fs : List Folder,
      (runUnits process fs).map (fun r => r.folderPath) = fs.map (fun f => f.folderName)
  | [] => rfl
  | f :: fs => by
    simp [runUnits, stepUnit_folderPath, runUnits_map_folderPath process fs]

theorem runUnits_length (process : Folder → ProcessOutcome) (fs : List Folder) :
    (runUnits process fs).length = fs.length := by
  have := congrArg List.length (runUnits_map_folderPath process fs)
  simpa using this

theorem tallyResults_sum : ∀ rs : List BatchResult,
    (tallyResults rs).1 + (tallyResults rs).2.1 = rs.length
  | [] => rfl
  | r :: rs => by
    have ih := tallyResults_sum rs
    unfold tallyResults
    split <;> simp <;> omega

/-- Claim C7: the batch loop records exactly one outcome per unit in input
order (so a unit's failure never aborts the batch), `summary.total` is the
number of units, and `success + failed = total` once processing completes —
for every per-unit behaviour, including throwing. -/
theorem claim7_batch_bookkeeping (process : Folder → ProcessOutcome)
    (folders : List Folder) :
    ((processFilesBatch process folders).1.map (fun r => r.folderPath)
        = folders.map (fun f => f.folderName))
    ∧ (processFilesBatch process folders).2.total = folders.length
    ∧ (processFilesBatch process folders).2.success
        + (processFilesBatch process folders).2.failed
        = (processFilesBatch process folders).2.total := by
  refine ⟨runUnits_map_folderPath process folders, rfl, ?_⟩
  show (tallyResults (runUnits process folders)).1
      + (tallyResults (runUnits process folders)).2.1 = folders.length
  rw [tallyResults_sum, runUnits_length]

/-- Claim C9: a unit with fewer than 2 images is rejected without invoking
per-unit processing (the outcome is independent of `process`), its error
message cites the actual image count and the ≥ 2 requirement, and it adds
exactly one entry to `summary.failed` and to the failed-unit list. -/
theorem claim9_insufficient_images (p q : Folder → ProcessOutcome) (f : Folder)
    (fs : List Folder) (h : f.files.length < 2) :
    stepUnit p f = stepUnit q f
    ∧ (stepUnit p f).success = false
    ∧ (stepUnit p f).errorMessage = some (insufficientImagesMessage f)
    ∧ containsStr (insufficientImagesMessage f) (toString f.files.length) = true
    ∧ containsStr (insufficientImagesMessage f) "需要至少2张图片" = true
    ∧ (processFilesBatch p (f :: fs)).2.failed = (processFilesBatch p fs).2.failed + 1
    ∧ (processFilesBatch p (f :: fs)).2.failedFolders
        = f.folderName :: (processFilesBatch p fs).2.failedFolders := by
  have hstep : ∀ r : Folder → ProcessOutcome,
      stepUnit r f = ⟨f.folderName, false, some (insufficientImagesMessage f)⟩ := by
    intro r
    unfold stepUnit
    rw [if_pos h]
  have hcount : containsStr (insufficientImagesMessage f) (toString f.files.length) = true := by
    unfold insufficientImagesMessage
    apply containsStr_append_left
    apply containsStr_append_left
    apply containsStr_append_right
    exact containsStr_refl _
  have hreq : containsStr (insufficientImagesMessage f) "需要至少2张图片" = true := by
    unfold insufficientImagesMessage
    apply containsStr_append_left
    apply containsStr_append_left
    apply containsStr_append_left
    apply containsStr_append_right
    decide
  have hrun : runUnits p (f :: fs) = stepUnit p f :: runUnits p fs := rfl
  have htal : tallyResults (stepUnit p f :: runUnits p fs)
      = ((tallyResults (runUnits p fs)).1, (tallyResults (runUnits p fs)).2.1 + 1,
        (stepUnit p f).folderPath :: (tallyResults (runUnits p fs)).2.2) := by
    conv_lhs => rw [tallyResults]
    rw [hstep p]
    simp
  refine ⟨by rw [hstep p, hstep q], by rw [hstep p], by rw [hstep p], hcount, hreq, ?_, ?_⟩
  · show (tallyResults (runUnits p (f :: fs))).2.1 = (tallyResults (runUnits p fs)).2.1 + 1
    rw [hrun, htal]
  · show (tallyResults (runUnits p (f :: fs))).2.2
        = f.folderName :: (tallyResults (runUnits p fs)).2.2
    rw [hrun, htal, hstep p]

/-- A unit with a single image, for the claim C9 witness. -/
def bobUnit : Folder := ⟨"bob", ["bob1.jpg"]⟩

/-- Claim C9 witness: `claim9_insufficient_images` at a one-image unit
(whose message must mention "1") with an empty remaining batch. -/
theorem claim9_witness :
    bobUnit.files.length < 2
    ∧ (stepUnit (fun _ => ProcessOutcome.ok) bobUnit
          = stepUnit (fun _ => ProcessOutcome.err "x") bobUnit
      ∧ (stepUnit (fun _ => ProcessOutcome.ok) bobUnit).success = false
      ∧ (stepUnit (fun _ => ProcessOutcome.ok) bobUnit).errorMessage
          = some (insufficientImagesMessage bobUnit)
      ∧ containsStr (insufficientImagesMessage bobUnit) (toString bobUnit.files.length) = true
      ∧ containsStr (insufficientImagesMessage bobUnit) "需要至少2张图片" = true
      ∧ (processFilesBatch (fun _ => ProcessOutcome.ok) (bobUnit :: [])).2.failed
          = (processFilesBatch (fun _ => ProcessOutcome.ok) []).2.failed + 1
      ∧ (processFilesBatch (fun _ => ProcessOutcome.ok) (bobUnit :: [])).2.failedFolders
          = bobUnit.folderName
              :: (processFilesBatch (fun _ => ProcessOutcome.ok) []).2.failedFolders) :=
  ⟨by decide,
    claim9_insufficient_images (fun _ => ProcessOutcome.ok) (fun _ => ProcessOutcome.err "x")
      bobUnit [] (by decide)⟩

end IdCardBatch
